import Mathlib

/-!
Verification of the repository mattosman/hands-on-examples against its
specification. The repository's single source file is the Jupyter notebook
src/packaging/intro_to_packaging.ipynb; the definitions below embed that
notebook (its cells array, each cell's type, source lines and captured
outputs, and the kernel metadata) verbatim, and the theorems settle the
spec's claims about it.
-/

namespace IntroPackaging

/-- A notebook cell's cell_type field: the notebook has markdown and code cells. -/
inductive CellType where
  | markdown
  | code
deriving DecidableEq, Repr

/-- One entry of a code cell's outputs array: the name ("stdout"), the
output_type ("stream") and the captured text lines. -/
structure CellOutput where
  name : String
  output_type : String
  text : List String
deriving DecidableEq, Repr

/-- One cell of the notebook: its cell_type, its source lines (verbatim, with
the trailing newline of every line but the last, exactly as the JSON stores
them) and its outputs (empty for markdown cells). -/
structure Cell where
  cell_type : CellType
  source : List String
  outputs : List CellOutput
deriving DecidableEq, Repr

/-- Cell 0 of the notebook (cell_type 'markdown'). -/
def cell0 : Cell where
  cell_type := .markdown
  source := [
    "# A quick introduction to creating packages in Python"
  ]
  outputs := []

/-- Cell 1 of the notebook (cell_type 'markdown'). -/
def cell1 : Cell where
  cell_type := .markdown
  source := [
    "## Why Are We Doing This?\n",
    "\n",
    "\n",
    "One of the most powerful things about coding for the sciences is that it costs nothing to re-use code we’ve written in the past, allowing us to build on past work rather than starting over every project or paper.\n",
    "\n",
    "However, one practice we see again and again is copying and pasting code from one project into another. Sometimes it will just be a function, other times (`MATLAB`, `NCL`) it’s files.\n",
    "\n",
    "Assembling code in packages makes it really easy to re-use old code: all the scripts and functions end up in a central location and can be called and \n",
    "imported from anywhere on the computer - just like the packages `numpy`, `xarray` or `matplotlib`."
  ]
  outputs := []

/-- Cell 2 of the notebook (cell_type 'markdown'). -/
def cell2 : Cell where
  cell_type := .markdown
  source := [
    "## Setting Up\n",
    "\n",
    "In this tutorial, we’ll walk through the creation of a simple package from some code that’s just lying around. You can view and clone the demo package: https://github.com/ncar-hackathons/hello-cesm-package. \n"
  ]
  outputs := []

/-- Cell 3 of the notebook (cell_type 'markdown'). -/
def cell3 : Cell where
  cell_type := .markdown
  source := [
    "### 1. The Basics\n",
    "\n",
    "The most basic directory structure for a Python package looks like this:\n",
    "\n",
    "```bash\n",
    "project\n",
    "|\n",
    "├── LICENSE\n",
    "├── README.md\n",
    "├── my_package\n",
    "│   ├── __init__.py\n",
    "│   └── some_module.py\n",
    "└── setup.py\n",
    "```"
  ]
  outputs := []

/-- Cell 4 of the notebook (cell_type 'markdown'). -/
def cell4 : Cell where
  cell_type := .markdown
  source := [
    "But at the moment, we've just got some flat files.\n",
    "\n",
    "\n",
    "```bash\n",
    "project\n",
    "|\n",
    "├── statistics.py\n",
    "└── climatologies.py\n",
    "```"
  ]
  outputs := []

/-- Cell 5 of the notebook (cell_type 'markdown'). -/
def cell5 : Cell where
  cell_type := .markdown
  source := [
    "So, the first step is to move files around. First comes the hardest part: choosing a package name. I’ll call mine `cesm_package`. Create a directory with that name, and move the python files in there."
  ]
  outputs := []

/-- Cell 6 of the notebook (cell_type 'markdown'). -/
def cell6 : Cell where
  cell_type := .markdown
  source := [
    "```bash\n",
    "project\n",
    "└── cesm_package\n",
    "    ├── climatologies.py\n",
    "    └── statistics.py\n",
    "```"
  ]
  outputs := []

/-- Cell 7 of the notebook (cell_type 'markdown'). -/
def cell7 : Cell where
  cell_type := .markdown
  source := [
    "There is one more crucial file: `__init__.py` lets the Python interpreter know that there are importable modules in this directory. This is the script that gets run when you execute import measure. For more about what you can do with modules, you can see the [Python docs](https://docs.python.org/3/tutorial/modules.html). After adding `__init__.py`, the project directory should be\n",
    "\n",
    "\n",
    "```bash\n",
    "project\n",
    "└── cesm_package\n",
    "    ├── __init__.py\n",
    "    ├── climatologies.py\n",
    "    └── statistics.py\n",
    "```"
  ]
  outputs := []

/-- Cell 8 of the notebook (cell_type 'markdown'). -/
def cell8 : Cell where
  cell_type := .markdown
  source := [
    "## `2. setup.py`\n",
    "\n",
    "At this point, the library can be imported if we’re in the same directory, but it isn’t a package. To let `setuptools` and `pip` know how to handle it, we need to add the `setup.py` file.\n",
    "\n"
  ]
  outputs := []

/-- Cell 9 of the notebook (cell_type 'markdown'). -/
def cell9 : Cell where
  cell_type := .markdown
  source := [
    "A very basic version of setup.py is:\n",
    "```python\n",
    "\n",
    "\"\"\"The setup script.\"\"\"\n",
    "\n",
    "from setuptools import setup\n",
    "install_requires = ['xarray', 'numpy', 'matplotlib'] # Whatever third-party libraries are needed\n",
    "setup(\n",
    "    author='Alice Doe',\n",
    "    author_email='alice@example.com',\n",
    "    description='My CESM analysis package',\n",
    "    install_requires=install_requires,\n",
    "    license='MIT',\n",
    "    long_description='CESM data analysis package'\n",
    "    keywords='ocean modeling',\n",
    "    name='cesm-package',\n",
    "    packages=['cesm_package'],\n",
    "    url='https://github.com/github-user-name/project-name',\n",
    "    version='0.1',\n",
    "    zip_safe=False,\n",
    ")\n",
    "\n",
    "```"
  ]
  outputs := []

/-- Cell 10 of the notebook (cell_type 'markdown'). -/
def cell10 : Cell where
  cell_type := .markdown
  source := [
    "After adding `setup.py` the project directory should be \n",
    "\n",
    "\n",
    "```bash\n",
    "project\n",
    "├── cesm_package\n",
    "│   ├── __init__.py\n",
    "│   ├── climatologies.py\n",
    "│   └── statistics.py\n",
    "└── setup.py\n",
    "```"
  ]
  outputs := []

/-- Cell 11 of the notebook (cell_type 'markdown'). -/
def cell11 : Cell where
  cell_type := .markdown
  source := [
    "### 3. Installing?\n",
    "\n",
    "Technically, you can install the module by running `python setup.py install`, however during development, it’s much more convenient to run the following command from the root directory of your project (directory in which`setup.py` is located in)\n",
    "\n",
    "```bash\n",
    "python setup.py develop\n",
    "```"
  ]
  outputs := []

/-- Cell 12 of the notebook (cell_type 'code', execution_count 15). -/
def cell12 : Cell where
  cell_type := .code
  source := [
    "ls"
  ]
  outputs := [
    { name := "stdout", output_type := "stream",
      text := [
        "LICENSE      README.md    \x1b[34mcesm_package\x1b[39;49m\x1b[0m setup.py\n"
      ] }
  ]

/-- Cell 13 of the notebook (cell_type 'code', execution_count 21). -/
def cell13 : Cell where
  cell_type := .code
  source := [
    "python setup.py develop"
  ]
  outputs := [
    { name := "stdout", output_type := "stream",
      text := [
        "running develop\n",
        "running egg_info\n",
        "writing cesm_package.egg-info/PKG-INFO\n",
        "writing dependency_links to cesm_package.egg-info/dependency_links.txt\n",
        "writing requirements to cesm_package.egg-info/requires.txt\n",
        "writing top-level names to cesm_package.egg-info/top_level.txt\n",
        "reading manifest file 'cesm_package.egg-info/SOURCES.txt'\n",
        "reading manifest template 'MANIFEST.in'\n",
        "writing manifest file 'cesm_package.egg-info/SOURCES.txt'\n",
        "running build_ext\n",
        "Creating /Users/abanihi/opt/miniconda3/envs/devel/lib/python3.6/site-packages/cesm-package.egg-link (link to .)\n",
        "cesm-package 0.1 is already the active version in easy-install.pth\n",
        "\n",
        "Installed /Users/abanihi/devel/ncar-hacks/hello-cesm-package\n",
        "Processing dependencies for cesm-package==0.1\n",
        "Searching for matplotlib==3.1.0\n",
        "Best match: matplotlib 3.1.0\n",
        "Adding matplotlib 3.1.0 to easy-install.pth file\n",
        "\n",
        "Using /Users/abanihi/opt/miniconda3/envs/devel/lib/python3.6/site-packages\n",
        "Searching for numpy==1.16.4\n",
        "Best match: numpy 1.16.4\n",
        "Adding numpy 1.16.4 to easy-install.pth file\n",
        "Installing f2py script to /Users/abanihi/opt/miniconda3/envs/devel/bin\n",
        "Installing f2py3 script to /Users/abanihi/opt/miniconda3/envs/devel/bin\n",
        "Installing f2py3.6 script to /Users/abanihi/opt/miniconda3/envs/devel/bin\n",
        "\n",
        "Using /Users/abanihi/opt/miniconda3/envs/devel/lib/python3.6/site-packages\n",
        "Searching for xarray==0.12.1\n",
        "Best match: xarray 0.12.1\n",
        "Adding xarray 0.12.1 to easy-install.pth file\n",
        "\n",
        "Using /Users/abanihi/opt/miniconda3/envs/devel/lib/python3.6/site-packages\n",
        "Searching for python-dateutil==2.8.0\n",
        "Best match: python-dateutil 2.8.0\n",
        "Adding python-dateutil 2.8.0 to easy-install.pth file\n",
        "\n",
        "Using /Users/abanihi/opt/miniconda3/envs/devel/lib/python3.6/site-packages\n",
        "Searching for cycler==0.10.0\n",
        "Best match: cycler 0.10.0\n",
        "Processing cycler-0.10.0-py3.6.egg\n",
        "cycler 0.10.0 is already the active version in easy-install.pth\n",
        "\n",
        "Using /Users/abanihi/opt/miniconda3/envs/devel/lib/python3.6/site-packages/cycler-0.10.0-py3.6.egg\n",
        "Searching for kiwisolver==1.1.0\n",
        "Best match: kiwisolver 1.1.0\n",
        "Adding kiwisolver 1.1.0 to easy-install.pth file\n",
        "\n",
        "Using /Users/abanihi/opt/miniconda3/envs/devel/lib/python3.6/site-packages\n",
        "Searching for pyparsing==2.4.0\n",
        "Best match: pyparsing 2.4.0\n",
        "Adding pyparsing 2.4.0 to easy-install.pth file\n",
        "\n",
        "Using /Users/abanihi/opt/miniconda3/envs/devel/lib/python3.6/site-packages\n",
        "Searching for pandas==0.24.2\n",
        "Best match: pandas 0.24.2\n",
        "Adding pandas 0.24.2 to easy-install.pth file\n",
        "\n",
        "Using /Users/abanihi/opt/miniconda3/envs/devel/lib/python3.6/site-packages\n",
        "Searching for six==1.12.0\n",
        "Best match: six 1.12.0\n",
        "Adding six 1.12.0 to easy-install.pth file\n",
        "\n",
        "Using /Users/abanihi/opt/miniconda3/envs/devel/lib/python3.6/site-packages\n",
        "Searching for setuptools==39.1.0\n",
        "Best match: setuptools 39.1.0\n",
        "Adding setuptools 39.1.0 to easy-install.pth file\n",
        "Installing easy_install script to /Users/abanihi/opt/miniconda3/envs/devel/bin\n",
        "\n",
        "Using /Users/abanihi/opt/miniconda3/envs/devel/lib/python3.6/site-packages\n",
        "Searching for pytz==2019.1\n",
        "Best match: pytz 2019.1\n",
        "Adding pytz 2019.1 to easy-install.pth file\n",
        "\n",
        "Using /Users/abanihi/opt/miniconda3/envs/devel/lib/python3.6/site-packages\n",
        "Finished processing dependencies for cesm-package==0.1\n"
      ] }
  ]

/-- Cell 14 of the notebook (cell_type 'markdown'). -/
def cell14 : Cell where
  cell_type := .markdown
  source := [
    "#### Using GIT/GitHub\n",
    "\n",
    "This is my preferred way of quickly sharing/storing/installing packages. Simply create a git repo of the project directory, and put it somewhere. Then, use pip to install it from that repo directly.\n",
    "\n",
    "\n",
    "```bash \n",
    "pip install git+https://github.com/ncar-hackathons/hello-cesm-package\n",
    "```"
  ]
  outputs := []

/-- Cell 15 of the notebook (cell_type 'markdown'). -/
def cell15 : Cell where
  cell_type := .markdown
  source := [
    "An advantage of this is that you can also install to particular branches, tags, and commits. A common practice is add a tag for the version release `git tag v0.1`. Users of the library can then lock into that particular version,\n",
    "\n",
    "\n",
    "```bash \n",
    "pip install git+https://github.com/ncar-hackathons/hello-cesm-package@v0.1\n",
    "```"
  ]
  outputs := []

/-- Cell 16 of the notebook (cell_type 'markdown'). -/
def cell16 : Cell where
  cell_type := .markdown
  source := [
    "### Documentation!\n",
    "\n",
    "We’ve already begun the documentation by adding a short description, author/maintainer name, and version… but there’s a lot more to add. At a minimum, a README file should be included, but so should a license dilw, changes between versions, and actual software documentation.\n"
  ]
  outputs := []

/-- Cell 17 of the notebook (cell_type 'markdown'). -/
def cell17 : Cell where
  cell_type := .markdown
  source := [
    "### README\n",
    "\n",
    "A readme file summarizes the software. For Python packages, this can named README, README.rst, or README.md. The recommendation is to use [reST](http://docutils.sourceforge.net/rst.html), as this is the standard on PyPI\n"
  ]
  outputs := []

/-- Cell 18 of the notebook (cell_type 'markdown'). -/
def cell18 : Cell where
  cell_type := .markdown
  source := [
    "\n",
    "### LICENSE\n",
    "\n",
    "The typical thing is to put the license you choose in LICENSE.md. There are a few choices for licenses. If you’re using github, you can add most standard open source licenses through the website.\n",
    "\n",
    "Check this web page for learning more about open source licenses: https://opensource.guide/legal/"
  ]
  outputs := []

/-- Cell 19 of the notebook (cell_type 'markdown'). -/
def cell19 : Cell where
  cell_type := .markdown
  source := [
    "#### CHANGES\n",
    "\n",
    "Changes between versions are usually tracked in `CHANGELOG.rst`. This is more of a concern if you’re planning to distribute the software.\n"
  ]
  outputs := []

/-- Cell 20 of the notebook (cell_type 'markdown'). -/
def cell20 : Cell where
  cell_type := .markdown
  source := [
    "### 5. OTHER THINGS TO THINK OF\n",
    "\n",
    "A good package should also include full documentation and testing. I won’t cover this here, but unit tests can be performed with the `pytest` library: https://docs.pytest.org/en/latest/, with the tests stored in the directory tests. \n",
    "\n",
    "We can run tests with the following command:"
  ]
  outputs := []

/-- Cell 21 of the notebook (cell_type 'code', execution_count 20). -/
def cell21 : Cell where
  cell_type := .code
  source := [
    "pytest tests -v"
  ]
  outputs := [
    { name := "stdout", output_type := "stream",
      text := [
        "\x1b[1m============================= test session starts ==============================\x1b[0m\n",
        "platform darwin -- Python 3.6.7, pytest-3.9.1, py-1.8.0, pluggy-0.12.0 -- /Users/abanihi/opt/miniconda3/envs/devel/bin/python\n",
        "cachedir: .pytest_cache\n",
        "rootdir: /Users/abanihi/devel/ncar-hacks/hello-cesm-package, inifile:\n",
        "plugins: icdiff-0.2, env-0.6.2, cov-2.7.1, print-0.1.2, cpp-1.1.0\n",
        "collected 1 item                                                               \x1b[0m\n",
        "\n",
        "tests/test_statistics.py::test_sample \x1b[32mPASSED\x1b[0m\x1b[36m                             [100%]\x1b[0m\n",
        "\n",
        "\x1b[32m\x1b[1m=========================== 1 passed in 0.01 seconds ===========================\x1b[0m\n"
      ] }
  ]

/-- Cell 22 of the notebook (cell_type 'markdown'). -/
def cell22 : Cell where
  cell_type := .markdown
  source := [
    "\n",
    "Many people use Sphinx for documentation, and that can be stored in the docs directory.\n",
    "\n",
    "There’s a further step required for distributing. If you want to include these files in the distribution file of your package, you’ll need a \n",
    "`MANIFEST.in` file.\n",
    "\n",
    "#### `MANIFEST.in`\n",
    "\n",
    "```\n",
    "include *.py\n",
    "recursive-include docs *.rst\n",
    "```"
  ]
  outputs := []

/-- Cell 23 of the notebook (cell_type 'markdown'). -/
def cell23 : Cell where
  cell_type := .markdown
  source := [
    "\n",
    "\n",
    "## 6. Where To Go From Here?\n",
    "\n",
    "So, at this point, we’ve got a pretty good project skeleton, and most of the basics are covered. Your package should look something like this:\n",
    "\n",
    "```bash\n",
    "\n",
    "project\n",
    "├── CHANGELOG.rst\n",
    "├── LICENSE\n",
    "├── MANIFEST.in\n",
    "├── README.md\n",
    "├── cesm_package\n",
    "│   ├── __init__.py\n",
    "│   ├── climatologies.py\n",
    "│   └── statistics.py\n",
    "├── docs\n",
    "│   └── overview.rst\n",
    "├── setup.py\n",
    "└── tests\n",
    "    └── test_statistics.py\n",
    "```"
  ]
  outputs := []

/-- Cell 24 of the notebook (cell_type 'markdown'). -/
def cell24 : Cell where
  cell_type := .markdown
  source := [
    "If you have software that covers all these points, then congratulations! You’re well on your way to a well-maintained software package."
  ]
  outputs := []

/-- Cell 25 of the notebook (cell_type 'markdown'). -/
def cell25 : Cell where
  cell_type := .markdown
  source := [
    "\n",
    "## So Where Do I Actually Go?\n",
    "\n",
    "To get a detailed look at packaging, check out \n",
    "\n",
    "- [the official Python docs](https://docs.python.org/3/distributing/index.html); they’re complete, accessible, and generally more up to date.\n",
    "- [NCAR pop-tools project](https://github.com/NCAR/pop-tools) for reference"
  ]
  outputs := []

/-- The notebook: the cells array of src/packaging/intro_to_packaging.ipynb, in order. -/
def notebook : List Cell := [
  cell0, cell1, cell2, cell3, cell4, cell5, cell6, cell7, cell8, cell9, cell10, cell11, cell12, cell13, cell14, cell15, cell16, cell17, cell18, cell19, cell20, cell21, cell22, cell23, cell24, cell25
]

/-- The notebook metadata kernelspec language (metadata.kernelspec.language). -/
def kernelLanguage : String := "bash"

/-- The notebook metadata language_info name (metadata.language_info.name). -/
def languageInfoName : String := "bash"

/-! ### String helpers

Executable helpers on strings, working on their character lists, used to
extract and check facts from the embedded cells. -/

/-- Whether pat occurs as a prefix of s. -/
def strStarts (s pat : String) : Bool := pat.toList.isPrefixOf s.toList

/-- Whether pat occurs as a contiguous segment of a character list. -/
def listInfix (pat : List Char) : List Char → Bool
  | [] => pat.isEmpty
  | c :: rest => pat.isPrefixOf (c :: rest) || listInfix pat rest

/-- Whether pat occurs as a contiguous substring of s. -/
def strContains (s pat : String) : Bool := listInfix pat.toList s.toList

/-- Whether pat occurs as a suffix of s. -/
def strEnds (s pat : String) : Bool :=
  pat.toList.reverse.isPrefixOf s.toList.reverse

/-- s without a trailing newline character (the JSON stores every source and
text line but the last of its array with one). -/
def chomp (s : String) : String :=
  match s.toList.reverse with
  | '\n' :: rest => String.mk rest.reverse
  | _ => s

/-- Whitespace for splitting a transcript line into words. -/
def isWsChar (c : Char) : Bool := c == ' ' || c == '\t' || c == '\n'

/-- The whitespace-separated words of a character list; acc holds the
characters of the word being read, in reverse. -/
def wordsAux : List Char → List Char → List String
  | [], acc => if acc.isEmpty then [] else [String.mk acc.reverse]
  | c :: cs, acc =>
    if isWsChar c then
      if acc.isEmpty then wordsAux cs [] else String.mk acc.reverse :: wordsAux cs []
    else wordsAux cs (c :: acc)

/-- The whitespace-separated words of a string. -/
def words (s : String) : List String := wordsAux s.toList []

/-- A character list with ANSI escape sequences removed: from each ESC
character through the following letter m, everything is dropped (the ls and
pytest transcripts colour entries with such sequences). The flag records
being inside a sequence; the fuel is the list length. -/
def stripAnsiAux : Nat → Bool → List Char → List Char
  | 0, _, l => l
  | _ + 1, _, [] => []
  | fuel + 1, true, c :: cs =>
    if c == 'm' then stripAnsiAux fuel false cs else stripAnsiAux fuel true cs
  | fuel + 1, false, c :: cs =>
    if c == '\x1b' then stripAnsiAux fuel true cs
    else c :: stripAnsiAux fuel false cs

/-- A string with ANSI escape sequences removed. -/
def stripAnsi (s : String) : String :=
  String.mk (stripAnsiAux s.toList.length false s.toList)

/-- Whether a source line opens or closes a fenced code block. -/
def fenceLine (l : String) : Bool := strStarts l "```"

/-- The lines of the first fenced code block of a markdown cell source:
the lines strictly between the first fence line and the next one, with
trailing newlines removed. -/
def codeBlock (src : List String) : List String :=
  (((src.dropWhile (fun l => !fenceLine l)).drop 1).takeWhile
    (fun l => !fenceLine l)).map chomp

/-! ### Derived views of the notebook -/

/-- The code cells of the notebook, in order. -/
def codeCells : List Cell := notebook.filter (fun c => c.cell_type == .code)

/-- Whether a cell is a markdown cell. -/
def isMarkdown (c : Cell) : Bool := c.cell_type == .markdown

/-- The captured text lines of a cell's outputs, concatenated in order. -/
def transcript (c : Cell) : List String := (c.outputs.map (fun o => o.text)).flatten

/-- The entries the ls code cell (cell 12) printed: the words of its single
stdout line once its ANSI colour sequences are removed. -/
def lsEntries : List String :=
  ((transcript cell12).map (fun l => words (stripAnsi l))).flatten

/-- The name quoted between the first pair of apostrophes of a transcript
line, as in: reading manifest template 'MANIFEST.in'. -/
def quotedName (l : String) : String :=
  String.mk (((l.toList.dropWhile (fun c => c ≠ '\'')).drop 1).takeWhile
    (fun c => c ≠ '\''))

/-- The files the python setup.py develop transcript (cell 13) reports
reading: the quoted names on its lines that start with the word reading. -/
def developReads : List String :=
  ((transcript cell13).filter (fun l => strStarts l "reading ")).map quotedName

/-- The repository's source tree: its only source file is the notebook. -/
def repositoryFiles : List String := ["src/packaging/intro_to_packaging.ipynb"]

/-! ### A fragment of Python's surface syntax

Cell 9 displays a setup.py script in a fenced python block. To settle
whether that script is syntactically valid Python, the snippet is tokenized
and the token stream of the setup(...) call's argument list is checked
against Python's call-argument grammar, restricted to the constructs the
snippet uses: keyword arguments NAME = value and positional values, where a
value is a string literal (adjacent string literals concatenate), a name, a
number, or a bracketed list of values; arguments are separated by commas and
a trailing comma is allowed. An atom followed directly by a name, with no
comma or operator between them, fits no production and is a SyntaxError. -/

/-- A token of the Python snippet: names, string literals, numbers,
brackets, commas, the equals sign, anything else kept as a raw character. -/
inductive PyTok where
  | name (s : String)
  | str (s : String)
  | num (s : String)
  | lparen
  | rparen
  | lbrack
  | rbrack
  | comma
  | eq
  | other (c : Char)
deriving DecidableEq, Repr

/-- Whether a character may start a Python identifier. -/
def isPyIdentStart (c : Char) : Bool := c.isAlpha || c == '_'

/-- Whether a character may continue a Python identifier. -/
def isPyIdentChar (c : Char) : Bool := c.isAlphanum || c == '_'

/-- Whether a character continues a numeric literal. -/
def isPyNumChar (c : Char) : Bool := c.isDigit || c == '.'

/-- Tokenizer for the snippet's fragment of Python: skips whitespace and
comments from a hash to the end of the line, reads quoted strings with no
escape handling (the snippet has none), identifiers and numbers, and the
punctuation the grammar fragment knows. The fuel is the input length; every
step consumes at least one character. -/
def pyTokenizeAux : Nat → List Char → List PyTok
  | 0, _ => []
  | _ + 1, [] => []
  | fuel + 1, c :: cs =>
    if c == ' ' || c == '\t' || c == '\n' then pyTokenizeAux fuel cs
    else if c == '#' then pyTokenizeAux fuel (cs.dropWhile (fun d => d ≠ '\n'))
    else if c == '\'' then
      PyTok.str (String.mk (cs.takeWhile (fun d => d ≠ '\''))) ::
        pyTokenizeAux fuel ((cs.dropWhile (fun d => d ≠ '\'')).drop 1)
    else if c == '"' then
      PyTok.str (String.mk (cs.takeWhile (fun d => d ≠ '"'))) ::
        pyTokenizeAux fuel ((cs.dropWhile (fun d => d ≠ '"')).drop 1)
    else if isPyIdentStart c then
      PyTok.name (String.mk (c :: cs.takeWhile isPyIdentChar)) ::
        pyTokenizeAux fuel (cs.dropWhile isPyIdentChar)
    else if c.isDigit then
      PyTok.num (String.mk (c :: cs.takeWhile isPyNumChar)) ::
        pyTokenizeAux fuel (cs.dropWhile isPyNumChar)
    else if c == '(' then PyTok.lparen :: pyTokenizeAux fuel cs
    else if c == ')' then PyTok.rparen :: pyTokenizeAux fuel cs
    else if c == '[' then PyTok.lbrack :: pyTokenizeAux fuel cs
    else if c == ']' then PyTok.rbrack :: pyTokenizeAux fuel cs
    else if c == ',' then PyTok.comma :: pyTokenizeAux fuel cs
    else if c == '=' then PyTok.eq :: pyTokenizeAux fuel cs
    else PyTok.other c :: pyTokenizeAux fuel cs

/-- The tokens of a list of source lines, joined with newlines. -/
def pyTokenize (lines : List String) : List PyTok :=
  let chars := (lines.map (fun l => l.toList ++ ['\n'])).flatten
  pyTokenizeAux chars.length chars

/-- The tokens right after the opening parenthesis of the setup( call. -/
def afterSetupParen : Nat → List PyTok → List PyTok
  | 0, _ => []
  | _ + 1, [] => []
  | fuel + 1, t :: rest =>
    match t, rest with
    | PyTok.name s, PyTok.lparen :: rest2 =>
      if s == "setup" then rest2 else afterSetupParen fuel rest
    | _, _ => afterSetupParen fuel rest

/-- The tokens up to the parenthesis that closes the call, tracking nesting
depth. -/
def takeArgToks : Nat → Nat → List PyTok → List PyTok
  | 0, _, _ => []
  | _ + 1, _, [] => []
  | fuel + 1, depth, t :: rest =>
    match t with
    | PyTok.rparen =>
      if depth == 0 then [] else t :: takeArgToks fuel (depth - 1) rest
    | PyTok.lparen => t :: takeArgToks fuel (depth + 1) rest
    | _ => t :: takeArgToks fuel depth rest

/-- Adjacent string literals concatenate into one value; the tokens after a
maximal run of them. -/
def dropStrings : List PyTok → List PyTok
  | PyTok.str _ :: rest => dropStrings rest
  | l => l

mutual

/-- Consume one value of the grammar fragment: a run of string literals, a
name, a number, or a bracketed list of values. Returns the tokens after the
value, or none when the tokens do not start with a value. -/
def pyValue : Nat → List PyTok → Option (List PyTok)
  | 0, _ => none
  | _ + 1, PyTok.str s :: rest => some (dropStrings (PyTok.str s :: rest))
  | _ + 1, PyTok.name _ :: rest => some rest
  | _ + 1, PyTok.num _ :: rest => some rest
  | fuel + 1, PyTok.lbrack :: rest => pyListItems fuel rest
  | _, _ => none

/-- Consume the comma-separated values of a list display, up to and
including its closing bracket. -/
def pyListItems : Nat → List PyTok → Option (List PyTok)
  | 0, _ => none
  | _ + 1, PyTok.rbrack :: rest => some rest
  | fuel + 1, toks =>
    match pyValue fuel toks with
    | none => none
    | some (PyTok.rbrack :: rest) => some rest
    | some (PyTok.comma :: rest) => pyListItems fuel rest
    | some _ => none

end

/-- Consume one call argument: NAME = value, or a value. -/
def pyArg (fuel : Nat) : List PyTok → Option (List PyTok)
  | PyTok.name _ :: PyTok.eq :: rest => pyValue fuel rest
  | toks => pyValue fuel toks

/-- Whether a token stream is a valid call-argument list of the grammar
fragment: arguments separated by commas, a trailing comma allowed. -/
def pyArgsValid : Nat → List PyTok → Bool
  | 0, _ => false
  | _ + 1, [] => true
  | fuel + 1, toks =>
    match pyArg fuel toks with
    | none => false
    | some [] => true
    | some (PyTok.comma :: rest) => pyArgsValid fuel rest
    | some _ => false

/-- The setup.py snippet of cell 9: the lines of its fenced python block. -/
def setupPyLines : List String := codeBlock cell9.source

/-- The token stream of the setup(...) call's argument list in the snippet. -/
def setupArgToks : List PyTok :=
  let toks := pyTokenize setupPyLines
  takeArgToks toks.length 0 (afterSetupParen toks.length toks)

/-- Whether the snippet's setup(...) argument list parses under the grammar
fragment. -/
def setupArgsOk : Bool := pyArgsValid (setupArgToks.length + 1) setupArgToks

/-- The snippet with the one missing comma inserted after the
long_description argument; used to show the parse failure is exactly that
comma. -/
def setupPyLinesFixed : List String :=
  setupPyLines.map (fun l =>
    if l == "    long_description='CESM data analysis package'" then l ++ "," else l)

/-- Whether the repaired snippet's setup(...) argument list parses. -/
def setupArgsFixedOk : Bool :=
  let toks := pyTokenize setupPyLinesFixed
  let args := takeArgToks toks.length 0 (afterSetupParen toks.length toks)
  pyArgsValid (args.length + 1) args

/-! ### The directory layouts the notebook draws

Several markdown cells draw the project directory as a tree in a fenced
block, with box-drawing connectors. The parser below turns such a block
into the list of paths it shows, each path a list of name components from
the project root. -/

/-- One tree line: strip indentation groups of four characters (a vertical
bar rail or four spaces), counting the depth, then read the entry name after
a branch or corner connector. Lines that are no entry (the project root
line, a bare pipe, a blank) give none. The fuel is the line length. -/
def treeEntryAux : Nat → Nat → List Char → Option (Nat × String)
  | 0, _, _ => none
  | fuel + 1, depth, l =>
    if ['├', '─', '─', ' '].isPrefixOf l || ['└', '─', '─', ' '].isPrefixOf l then
      some (depth, String.mk (l.drop 4))
    else if ['│', ' ', ' ', ' '].isPrefixOf l || [' ', ' ', ' ', ' '].isPrefixOf l then
      treeEntryAux fuel (depth + 1) (l.drop 4)
    else none

/-- The (depth, name) of a tree line, when it is an entry line. -/
def treeEntry (l : String) : Option (Nat × String) :=
  treeEntryAux (l.toList.length + 1) 0 l.toList

/-- The paths of a tree drawing: stack is the path of the previous entry; an
entry at depth d is a child of that path's first d components. -/
def parseTreeAux : List String → List String → List (List String)
  | [], _ => []
  | l :: ls, stack =>
    match treeEntry l with
    | none => parseTreeAux ls stack
    | some (d, name) =>
      let path := stack.take d ++ [name]
      path :: parseTreeAux ls path

/-- The paths a markdown cell's fenced tree drawing shows. -/
def layoutOf (c : Cell) : List (List String) := parseTreeAux (codeBlock c.source) []

/-- The flat layout of cell 4, before any packaging step. -/
def layoutFlat : List (List String) := layoutOf cell4

/-- The layout of cell 6, after the files move into the cesm_package
directory. -/
def layoutMoved : List (List String) := layoutOf cell6

/-- The layout of cell 7, after __init__.py is added. -/
def layoutAfterInit : List (List String) := layoutOf cell7

/-- The layout of cell 10, after setup.py is added. -/
def layoutAfterSetup : List (List String) := layoutOf cell10

/-- The final layout of cell 23 (section 6). -/
def layoutFinal : List (List String) := layoutOf cell23

/-- Whether every path of a is a path of b. -/
def pathsSubset (a b : List (List String)) : Bool := a.all (fun p => b.contains p)

/-- The glossary's definition of a package, at the names the notebook uses: a
layout whose cesm_package directory holds the initializer file __init__.py
and the module files climatologies.py and statistics.py. -/
def isPackageLayout (paths : List (List String)) : Bool :=
  paths.contains ["cesm_package"] &&
  paths.contains ["cesm_package", "__init__.py"] &&
  paths.contains ["cesm_package", "climatologies.py"] &&
  paths.contains ["cesm_package", "statistics.py"]

/-- The MANIFEST.in content cell 22 shows: the lines of its fenced block. -/
def manifestLines : List String := codeBlock cell22.source

/-! ### The notebook's described actions as a step relation

The notebook narrates a linear sequence of operator actions: creating a
file or a directory, moving a file, invoking a command. The model below
gives those actions a deterministic small-step semantics on directory
states (finite sets of paths, kept as duplicate-free lists) and replays the
notebook's sequence, checking the state against each layout drawing. -/

/-- A directory state: the paths present, from the project root. -/
def DirState := List (List String)

/-- An action the notebook describes. -/
inductive Action where
  | create (p : List String)
  | move (src dst : List String)
  | run (cmd : String)
deriving DecidableEq, Repr

/-- Insert a path unless present. -/
def addPath (p : List String) (s : List (List String)) : List (List String) :=
  if s.contains p then s else s ++ [p]

/-- The effect of one action on a directory state: create inserts the path,
move removes the source path and inserts the destination, and run leaves
the described project tree unchanged (the commands are external tools; the
notebook draws no tree change from them). -/
def applyAction (s : List (List String)) : Action → List (List String)
  | .create p => addPath p s
  | .move src dst => addPath dst (s.filter (fun q => !(q == src)))
  | .run _ => s

/-- The step relation of the model: from state s, action a leads exactly to
applyAction s a. -/
def Step (s : List (List String)) (a : Action) (t : List (List String)) : Prop :=
  t = applyAction s a

/-- The actions the notebook describes, in its order: the flat files of cell
4; the move into cesm_package of cells 5 and 6; __init__.py (cell 7);
setup.py (cells 8 and 10); the ls, develop and pytest invocations (cells 11,
12, 13, 20, 21); the documentation and test files of sections 4 and 5 and
cell 22, completing the final layout of cell 23. -/
def describedActions : List Action := [
  .create ["statistics.py"],
  .create ["climatologies.py"],
  .create ["cesm_package"],
  .move ["climatologies.py"] ["cesm_package", "climatologies.py"],
  .move ["statistics.py"] ["cesm_package", "statistics.py"],
  .create ["cesm_package", "__init__.py"],
  .create ["setup.py"],
  .run "ls",
  .run "python setup.py develop",
  .create ["README.md"],
  .create ["LICENSE"],
  .create ["CHANGELOG.rst"],
  .create ["tests"],
  .create ["tests", "test_statistics.py"],
  .run "pytest tests -v",
  .create ["docs"],
  .create ["docs", "overview.rst"],
  .create ["MANIFEST.in"]
]

/-- The state reached by running the first n described actions from the
empty project. -/
def stateAfter (n : Nat) : List (List String) :=
  (describedActions.take n).foldl applyAction []

/-- Whether two directory states hold the same paths. -/
def stateSetEq (a b : List (List String)) : Bool :=
  a.all (fun p => b.contains p) && b.all (fun p => a.contains p)

/-! ### Predicates the claims quantify over -/

/-- Whether a source line textually introduces Python code of its own: a
function definition, a class definition, or a lambda. -/
def definesPythonCode (l : String) : Bool :=
  strContains l "def " || strContains l "class " || strContains l "lambda"

/-- Whether a transcript line carries a failure, retry or recovery marker. -/
def failureMarker (l : String) : Bool :=
  strContains l "Error" || strContains l "error" || strContains l "Traceback" ||
  strContains l "fail" || strContains l "FAILED" || strContains l "retry" ||
  strContains l "Retry" || strContains l "warning" || strContains l "Warning"

/-- Whether a source line redefines one of the invoked commands as a shell
alias or function. -/
def redefinesCommand (l : String) : Bool :=
  strContains l "alias ls" || strContains l "alias python" ||
  strContains l "alias pytest" || strContains l "ls()" ||
  strContains l "python()" || strContains l "pytest()"

/-- The conventional interface file names of the documented ecosystem. -/
def conventionalNames : List String :=
  ["README", "README.md", "README.rst", "LICENSE", "CHANGELOG.rst",
   "MANIFEST.in", "setup.py", "__init__.py"]

/-- Whether a layout path is a directory of the layout: a proper prefix of
another of its paths. -/
def isDirIn (paths : List (List String)) (p : List String) : Bool :=
  paths.any (fun q => !(p == q) && p.isPrefixOf q)

/-- Whether a layout path names a conventional artifact or an external file
format: its last component is a conventional interface name, or a Python
module, or a reST document. -/
def conventionalArtifact (p : List String) : Bool :=
  match p.getLast? with
  | none => false
  | some n => conventionalNames.contains n || strEnds n ".py" || strEnds n ".rst"

/-- The value between the apostrophes of the first setup.py snippet line
reading (after its indentation) key='value'. -/
def setupKwValue (key : String) : Option String :=
  match setupPyLines.filter (fun l => strStarts l ("    " ++ key ++ "='")) with
  | [] => none
  | l :: _ => some (quotedName l)

/-- The first element of the packages=[...] list of the setup.py snippet. -/
def setupPackagesFirst : Option String :=
  match setupPyLines.filter (fun l => strStarts l "    packages=[") with
  | [] => none
  | l :: _ => some (quotedName l)

/-! ### The claims -/

set_option maxRecDepth 16384

/-- C1: every cell of the notebook is a markdown prose cell (with no
outputs) or a bash code cell with a captured stream transcript, and no cell
of the notebook defines or executes Python code of its own: no source line
of any cell holds a function definition, class definition or lambda, and the
notebook's kernel is bash. -/
theorem notebook_cells_prose_or_bash_transcripts :
    (∀ c ∈ notebook, (c.cell_type = .markdown ∧ c.outputs = []) ∨
      (c.cell_type = .code ∧ c.source.length = 1 ∧ c.outputs ≠ [] ∧
        ∀ o ∈ c.outputs, o.output_type = "stream")) ∧
    kernelLanguage = "bash" ∧
    (∀ c ∈ notebook, ∀ l ∈ c.source, definesPythonCode l = false) := by decide

/-- C2: the setup.py script cell 9 displays is not syntactically valid
Python. Its long_description argument line carries no trailing comma while
the next line is the keywords argument, the setup(...) argument-list tokens
do not parse under the call-argument grammar fragment (a string atom is
followed directly by the name keywords, which is a SyntaxError, so the
setup() call would never run), and inserting exactly the one missing comma
makes the argument list parse. -/
theorem setup_snippet_missing_comma :
    setupPyLines[11]? = some "    long_description='CESM data analysis package'" ∧
    setupPyLines[12]? = some "    keywords='ocean modeling'," ∧
    strEnds "    long_description='CESM data analysis package'" "," = false ∧
    setupArgsOk = false ∧
    setupArgsFixedOk = true := by decide

/-- C3: every code cell's recorded output indicates success: all outputs
are stdout streams, no transcript line carries a failure, retry or recovery
marker, the develop transcript ends with the line Finished processing
dependencies for cesm-package==0.1, and the pytest transcript reports one
test collected and one passed. -/
theorem transcripts_show_success_only :
    (∀ c ∈ codeCells, c.outputs ≠ [] ∧ ∀ o ∈ c.outputs,
      o.output_type = "stream" ∧ o.name = "stdout" ∧
      ∀ l ∈ o.text, failureMarker l = false) ∧
    (transcript cell13).getLast? =
      some "Finished processing dependencies for cesm-package==0.1\n" ∧
    (transcript cell21).any (fun l => strContains l "collected 1 item") = true ∧
    (transcript cell21).any (fun l => strContains l "1 passed") = true ∧
    (transcript cell21).any (fun l => strContains l "PASSED") = true := by decide

/-- C4: the notebook's code cells execute exactly the commands ls, python
setup.py develop and pytest tests -v, in that order, under a bash kernel;
each invokes a pre-existing external program (ls, python, pytest), and no
cell of the notebook redefines any of those commands. -/
theorem code_cells_invoke_external_tools_only :
    codeCells.map (fun c => c.source) =
      [["ls"], ["python setup.py develop"], ["pytest tests -v"]] ∧
    kernelLanguage = "bash" ∧ languageInfoName = "bash" ∧
    codeCells.map (fun c => ((c.source.map words).flatten).head?) =
      [some "ls", some "python", some "pytest"] ∧
    (∀ c ∈ notebook, ∀ l ∈ c.source, redefinesCommand l = false) := by decide

/-- C5 counterexample: the directory listing the ls transcript records
immediately before python setup.py develop does not contain every file the
develop transcript reads. The develop transcript reports reading the
manifest template MANIFEST.in, and MANIFEST.in is not among the listed
entries LICENSE, README.md, cesm_package, setup.py. -/
theorem ls_listing_missing_manifest_cex :
    "MANIFEST.in" ∈ developReads ∧
    lsEntries = ["LICENSE", "README.md", "cesm_package", "setup.py"] ∧
    "MANIFEST.in" ∉ lsEntries := by decide

/-- C5 as amended: the directory listed by the ls transcript immediately
before python setup.py develop (exactly LICENSE, README.md, cesm_package,
setup.py) does not contain the files the subsequent develop transcript
reads: neither the MANIFEST.in manifest template it reports reading nor the
egg-info manifest file appears in the listing. -/
theorem ls_develop_transcripts_inconsistent :
    lsEntries = ["LICENSE", "README.md", "cesm_package", "setup.py"] ∧
    developReads = ["cesm_package.egg-info/SOURCES.txt", "MANIFEST.in"] ∧
    (∀ f ∈ developReads, f ∉ lsEntries) := by decide

/-- C6: the repository defines no test functions (no source line of any
notebook cell holds one, and the repository's only file is the notebook
itself), while the single test the pytest transcript shows passing,
tests/test_statistics.py::test_sample, runs with its rootdir inside the
external demo package hello-cesm-package. -/
theorem tests_belong_to_external_demo_package :
    (∀ c ∈ notebook, ∀ l ∈ c.source, strContains l "def test" = false) ∧
    (transcript cell21).any
      (fun l => strContains l "tests/test_statistics.py::test_sample") = true ∧
    (transcript cell21).any (fun l =>
      strContains l "rootdir: /Users/abanihi/devel/ncar-hacks/hello-cesm-package") = true ∧
    "tests/test_statistics.py" ∉ repositoryFiles ∧
    repositoryFiles = ["src/packaging/intro_to_packaging.ipynb"] := by decide

/-- C7: each project layout the notebook draws after __init__.py is
introduced (cells 7, 10 and the final layout of cell 23) satisfies the
glossary's package shape — the cesm_package directory holds __init__.py,
climatologies.py and statistics.py — the layouts of cells 10 and 23 hold
setup.py, and each successive layout is a superset of the previous one. -/
theorem layouts_satisfy_package_and_grow :
    layoutAfterInit = [["cesm_package"], ["cesm_package", "__init__.py"],
      ["cesm_package", "climatologies.py"], ["cesm_package", "statistics.py"]] ∧
    layoutAfterSetup = layoutAfterInit ++ [["setup.py"]] ∧
    layoutFinal = [["CHANGELOG.rst"], ["LICENSE"], ["MANIFEST.in"], ["README.md"],
      ["cesm_package"], ["cesm_package", "__init__.py"],
      ["cesm_package", "climatologies.py"], ["cesm_package", "statistics.py"],
      ["docs"], ["docs", "overview.rst"], ["setup.py"],
      ["tests"], ["tests", "test_statistics.py"]] ∧
    (∀ L ∈ [layoutAfterInit, layoutAfterSetup, layoutFinal],
      isPackageLayout L = true) ∧
    ["setup.py"] ∈ layoutAfterSetup ∧ ["setup.py"] ∈ layoutFinal ∧
    pathsSubset layoutAfterInit layoutAfterSetup = true ∧
    pathsSubset layoutAfterSetup layoutFinal = true := by decide

/-- C8: the MANIFEST.in content cell 22 shows consists solely of the two
directive lines include *.py and recursive-include docs *.rst, each opening
with a directive of the external manifest-inclusion format, and every
non-directory path of the final layout names a conventional interface file
of the ecosystem or an external .py or .rst file format. -/
theorem interface_artifacts_conventional :
    manifestLines = ["include *.py", "recursive-include docs *.rst"] ∧
    (∀ l ∈ manifestLines, (words l).head? = some "include" ∨
      (words l).head? = some "recursive-include") ∧
    (∀ p ∈ layoutFinal, isDirIn layoutFinal p = true ∨
      conventionalArtifact p = true) := by decide

/-- C9: the snippet's installable distribution name cesm-package (its name=
argument, with a hyphen) differs from the importable package name
cesm_package (its packages= argument, with an underscore); the develop
transcript installs under the hyphenated name while the listed importable
top-level directory keeps the underscore. -/
theorem distribution_name_differs_from_import_name :
    setupKwValue "name" = some "cesm-package" ∧
    setupPackagesFirst = some "cesm_package" ∧
    "cesm-package" ≠ "cesm_package" ∧
    (transcript cell13).contains
      "cesm-package 0.1 is already the active version in easy-install.pth\n" = true ∧
    (transcript cell13).any
      (fun l => strContains l "Processing dependencies for cesm-package==0.1") = true ∧
    lsEntries.contains "cesm_package" = true := by decide

/-- C10: over the described project-directory states, every action the
notebook narrates is one synchronous operator-driven transition of the Step
relation: each action from each state leads to exactly one next state, the
next state is applyAction of the current one, and replaying the notebook's
action sequence one step at a time reproduces each directory drawing the
notebook shows (cells 4, 6, 7, 10 and the final layout), with no overlap of
actions and nothing concurrent, scheduled or cancelled in the model. -/
theorem described_actions_single_synchronous_steps :
    (∀ s a t u, Step s a t → Step s a u → t = u) ∧
    (∀ s a, Step s a (applyAction s a)) ∧
    stateSetEq (stateAfter 2) layoutFlat = true ∧
    stateSetEq (stateAfter 5) layoutMoved = true ∧
    stateSetEq (stateAfter 6) layoutAfterInit = true ∧
    stateSetEq (stateAfter 7) layoutAfterSetup = true ∧
    stateSetEq (stateAfter describedActions.length) layoutFinal = true := by
  refine ⟨fun s a t u ht hu => Eq.trans ht (Eq.symm hu), fun s a => rfl,
    ?_, ?_, ?_, ?_, ?_⟩ <;> decide

end IntroPackaging
